import Mathlib

/-!
Shallow embedding of the portfolio-agent ask workflow (Go) in Lean 4.

Source files embedded here:
  internal/usecase/ask.go        (AskService.Ask, ensureConfig, loadSSMParams,
                                  upstreamStatusCode)
  internal/usecase (errors file) (ErrorCode constants, Error, newError)
  internal/usecase (prompt file) (buildPromptMessages, buildPolicyPrompt,
                                  buildProfileContextPrompt,
                                  historyToPromptMessages, behaviorRules,
                                  outputContract, normalizePromptInput,
                                  parseScopedAnswer)
  internal/repository/dynamodb_client.go (GetHistory decoding + reversal,
                                  SaveTurn, SaveCompletedTurn, NewMessage,
                                  NewConversationMeta, itemToMessage,
                                  messageItem, metaItem, strAttr)
  internal/domain/chat.go, conversation.go (ChatMessage, Message,
                                  ConversationMeta)

Go strings are modelled as Lean `String`; Go's `len` on a string counts
UTF-8 bytes, so it is modelled by `String.utf8ByteSize`.  External
collaborators (SSM parameter source, OpenAI client, DynamoDB state store)
are modelled as an oracle record of result-valued functions, and the
workflow additionally returns the ordered list of external calls it made,
so that claims about which calls happen (or do not happen) are statable.
-/

deriving instance DecidableEq for Except

namespace PortfolioAgent

/-! ## Go string primitives -/

/-- Unicode White_Space predicate, as used by Go's `unicode.IsSpace`
(and hence by `strings.TrimSpace` and `strings.Fields`). -/
def goIsSpace (c : Char) : Bool :=
  c = ' ' || c = '\t' || c = '\n' || c = '\r' ||
  c.toNat = 0x0B || c.toNat = 0x0C ||
  c.toNat = 0x85 || c.toNat = 0xA0 ||
  c.toNat = 0x1680 || (0x2000 ≤ c.toNat && c.toNat ≤ 0x200A) ||
  c.toNat = 0x2028 || c.toNat = 0x2029 || c.toNat = 0x202F ||
  c.toNat = 0x205F || c.toNat = 0x3000

/-- Go `strings.TrimSpace`: drop leading and trailing Unicode whitespace. -/
def trimSpace (s : String) : String :=
  String.mk (((s.data.dropWhile goIsSpace).reverse.dropWhile goIsSpace).reverse)

/-- Go `len` on a string: the number of UTF-8 bytes. -/
def goLen (s : String) : Nat := s.utf8ByteSize

/-- Go `strings.TrimRight(s, "/")`: drop trailing slash characters. -/
def trimRightSlash (s : String) : String :=
  String.mk ((s.data.reverse.dropWhile (fun c => c = '/')).reverse)

/-- Accumulator pass for Go `strings.Fields`. -/
def goFieldsAux : List Char → List Char → List String
  | [], acc => if acc.isEmpty then [] else [String.mk acc.reverse]
  | c :: rest, acc =>
    if goIsSpace c then
      if acc.isEmpty then goFieldsAux rest []
      else String.mk acc.reverse :: goFieldsAux rest []
    else goFieldsAux rest (c :: acc)

/-- Go `strings.Fields`: split around runs of Unicode whitespace. -/
def goFields (s : String) : List String := goFieldsAux s.data []

/-! ## Domain types (internal/domain) -/

/-- domain.ChatMessage. -/
structure ChatMessage where
  role : String
  content : String
deriving DecidableEq, Repr

/-- domain.Message (one persisted conversation turn). -/
structure Message where
  pk : String
  sk : String
  conversationID : String
  text : String
  answer : String
  tokens : Int
  status : String
  ttl : Int
deriving DecidableEq, Repr

/-- domain.ConversationMeta. -/
structure ConversationMeta where
  pk : String
  sk : String
  conversationID : String
  lastActivity : String
  turns : Int
  ttl : Int
deriving DecidableEq, Repr

/-- usecase constant statusComplete. -/
def statusComplete : String := "complete"

/-! ## Prompt builder (usecase prompt file) -/

structure promptContext where
  pinnedPrompt : String
  resume : String
  interests : String
deriving DecidableEq, Repr

/-- behaviorRules(): the fixed behavior-rules block. -/
def behaviorRules : String :=
  String.intercalate "\n"
    [ "1) Answer only the current user question in this request.",
      "2) Use first-person voice as the portfolio owner.",
      "3) Keep responses professional and concise.",
      "4) Use only resume, interests, and completed conversation history as sources.",
      "5) Treat questions unrelated to recruiting for a professional role as off-topic.",
      "6) If required information is unavailable, respond exactly: \"I don't have that information.\"" ]

/-- outputContract(): the fixed output-contract sentence. -/
def outputContract : String :=
  "Return JSON only with keys in_scope (boolean) and answer (string). " ++
  "If out of scope, return in_scope=false and answer=\"\". " ++
  "If in scope, return in_scope=true and provide the final user-facing answer in answer."

/-- buildPolicyPrompt(): first fixed system message. -/
def buildPolicyPrompt : String :=
  String.intercalate "\n"
    [ "Role:",
      "You are answering as the portfolio owner in first person.",
      "",
      "Task:",
      "Determine whether the current question is relevant to recruiting for a professional role.",
      "If relevant, answer using only the approved sources.",
      "If not relevant, return out of scope.",
      "",
      "Approved Sources:",
      "- Resume content provided in this request",
      "- Interests provided in this request",
      "- Completed prior conversation turns in this request",
      "",
      "Behavior Rules:",
      behaviorRules,
      "",
      "Output Contract:",
      outputContract ]

/-- normalizePromptInput: collapse internal whitespace runs to single spaces
and trim (Go: strings.Join(strings.Fields(strings.TrimSpace(s)), " ")). -/
def normalizePromptInput (s : String) : String :=
  String.intercalate " " (goFields (trimSpace s))

/-- buildProfileContextPrompt: second fixed system message
(pinned prompt, then normalized resume and interests). -/
def buildProfileContextPrompt (ctx : promptContext) : String :=
  trimSpace ctx.pinnedPrompt ++ "\n\nPortfolio Context:\n\nResume:\n" ++
  normalizePromptInput ctx.resume ++ "\n\nInterests:\n" ++
  normalizePromptInput ctx.interests

/-- historyToPromptMessages: an eligible record (status=complete, non-empty
trimmed text and answer) yields a user/assistant pair; anything else
yields no messages. -/
def historyToPromptMessages (m : Message) : List ChatMessage :=
  if m.status ≠ statusComplete then []
  else
    let question := trimSpace m.text
    let answer := trimSpace m.answer
    if question = "" || answer = "" then []
    else [⟨"user", question⟩, ⟨"assistant", answer⟩]

/-- buildPromptMessages: two system messages, replayed history pairs in
store order, then the current question as a final user message. -/
def buildPromptMessages (ctx : promptContext) (question : String)
    (history : List Message) : List ChatMessage :=
  (⟨"system", buildPolicyPrompt⟩ ::
   ⟨"system", buildProfileContextPrompt ctx⟩ ::
   history.flatMap historyToPromptMessages) ++
  [⟨"user", question⟩]

/-! ## Structured response parser (usecase parseScopedAnswer)

Models Go's `json.NewDecoder(...).Decode` with `DisallowUnknownFields()`
into the struct `scopedAnswerResponse { InScope bool `in_scope`; Answer
string `answer` }`, followed by the second `Decode` that must hit `io.EOF`.
Decoding the first value succeeds exactly on a JSON `null` or a JSON
object whose keys (matched case-insensitively, as Go's field matching
does) are `in_scope` with a boolean or null value and `answer` with a
string or null value; any unknown key, wrong-typed value, other top-level
value, or syntax error fails.  Exotic non-ASCII case-folding of keys is
not modelled (the struct keys are plain ASCII). -/

/-- Go struct scopedAnswerResponse (JSON tags in_scope / answer). -/
structure scopedAnswerResponse where
  inScope : Bool
  answer : String
deriving DecidableEq, Repr

/-- The zero value of scopedAnswerResponse. -/
def zeroScoped : scopedAnswerResponse := ⟨false, ""⟩

/-- JSON insignificant whitespace (RFC 8259, as skipped by Go's decoder). -/
def jsonWs (c : Char) : Bool :=
  c = ' ' || c = '\t' || c = '\n' || c = '\r'

def openBraceChar : Char := Char.ofNat 123

def closeBraceChar : Char := Char.ofNat 125

/-- Hexadecimal digit value, for \uXXXX escapes (code points 48-57 are the
digits, 97-102 lowercase a-f, 65-70 uppercase A-F). -/
def hexVal (c : Char) : Option Nat :=
  let n := c.toNat
  if 48 ≤ n && n ≤ 57 then some (n - 48)
  else if 97 ≤ n && n ≤ 102 then some (n - 87)
  else if 65 ≤ n && n ≤ 70 then some (n - 55)
  else none

/-- ASCII case folding (Go's json field-name matching is case-insensitive). -/
def asciiFold (c : Char) : Char :=
  if 'A' ≤ c && c ≤ 'Z' then Char.ofNat (c.toNat + 32) else c

/-- Case-insensitive key comparison for struct field matching. -/
def eqFold (a b : String) : Bool :=
  a.data.map asciiFold == b.data.map asciiFold

/-- Body of a JSON string after the opening quote: returns the decoded
content and the input after the closing quote.  Handles the standard
escapes, \uXXXX with surrogate-pair combination, and Go's replacement of
invalid surrogate halves by U+FFFD; rejects unescaped control characters
and invalid escapes. -/
def parseStringBody : Nat → List Char → Except String (List Char × List Char)
  | 0, _ => .error "out of fuel"
  | _ + 1, [] => .error "unexpected end of string literal"
  | fuel + 1, c :: rest =>
    if c = '"' then .ok ([], rest)
    else if c = '\\' then
      match rest with
      | [] => .error "unexpected end after backslash"
      | e :: rest2 =>
        if e = '"' || e = '\\' || e = '/' then
          match parseStringBody fuel rest2 with
          | .error msg => .error msg
          | .ok (cs, r) => .ok (e :: cs, r)
        else if e = 'b' then
          match parseStringBody fuel rest2 with
          | .error msg => .error msg
          | .ok (cs, r) => .ok (Char.ofNat 8 :: cs, r)
        else if e = 'f' then
          match parseStringBody fuel rest2 with
          | .error msg => .error msg
          | .ok (cs, r) => .ok (Char.ofNat 12 :: cs, r)
        else if e = 'n' then
          match parseStringBody fuel rest2 with
          | .error msg => .error msg
          | .ok (cs, r) => .ok ('\n' :: cs, r)
        else if e = 'r' then
          match parseStringBody fuel rest2 with
          | .error msg => .error msg
          | .ok (cs, r) => .ok ('\r' :: cs, r)
        else if e = 't' then
          match parseStringBody fuel rest2 with
          | .error msg => .error msg
          | .ok (cs, r) => .ok ('\t' :: cs, r)
        else if e = 'u' then
          match rest2 with
          | h1 :: h2 :: h3 :: h4 :: rest3 =>
            match hexVal h1, hexVal h2, hexVal h3, hexVal h4 with
            | some a, some b, some c1, some d =>
              let code := ((a * 16 + b) * 16 + c1) * 16 + d
              if 0xD800 ≤ code && code ≤ 0xDBFF then
                -- high surrogate: try to combine with a following \uXXXX
                match rest3 with
                | '\\' :: 'u' :: g1 :: g2 :: g3 :: g4 :: rest4 =>
                  match hexVal g1, hexVal g2, hexVal g3, hexVal g4 with
                  | some a2, some b2, some c2, some d2 =>
                    let low := ((a2 * 16 + b2) * 16 + c2) * 16 + d2
                    if 0xDC00 ≤ low && low ≤ 0xDFFF then
                      match parseStringBody fuel rest4 with
                      | .error msg => .error msg
                      | .ok (cs, r) =>
                        .ok (Char.ofNat
                          (0x10000 + (code - 0xD800) * 0x400 + (low - 0xDC00)) :: cs, r)
                    else
                      match parseStringBody fuel ('\\' :: 'u' :: g1 :: g2 :: g3 :: g4 :: rest4) with
                      | .error msg => .error msg
                      | .ok (cs, r) => .ok (Char.ofNat 0xFFFD :: cs, r)
                  | _, _, _, _ =>
                    match parseStringBody fuel ('\\' :: 'u' :: g1 :: g2 :: g3 :: g4 :: rest4) with
                    | .error msg => .error msg
                    | .ok (cs, r) => .ok (Char.ofNat 0xFFFD :: cs, r)
                | _ =>
                  match parseStringBody fuel rest3 with
                  | .error msg => .error msg
                  | .ok (cs, r) => .ok (Char.ofNat 0xFFFD :: cs, r)
              else if 0xDC00 ≤ code && code ≤ 0xDFFF then
                match parseStringBody fuel rest3 with
                | .error msg => .error msg
                | .ok (cs, r) => .ok (Char.ofNat 0xFFFD :: cs, r)
              else
                match parseStringBody fuel rest3 with
                | .error msg => .error msg
                | .ok (cs, r) => .ok (Char.ofNat code :: cs, r)
            | _, _, _, _ => .error "invalid unicode escape"
          | _ => .error "invalid unicode escape"
        else .error "invalid escape character"
    else if c.toNat < 32 then .error "control character in string literal"
    else
      match parseStringBody fuel rest with
      | .error msg => .error msg
      | .ok (cs, r) => .ok (c :: cs, r)

/-- Parse the JSON literals true / false / null for the boolean field
(null leaves the field untouched, per Go). -/
def parseBoolOrNull : List Char → Except String (Option Bool × List Char)
  | 't' :: 'r' :: 'u' :: 'e' :: r => .ok (some true, r)
  | 'f' :: 'a' :: 'l' :: 's' :: 'e' :: r => .ok (some false, r)
  | 'n' :: 'u' :: 'l' :: 'l' :: r => .ok (none, r)
  | _ => .error "cannot unmarshal value into field of type bool"

/-- Parse a JSON string or null for the string field. -/
def parseStringOrNull : List Char → Except String (Option String × List Char)
  | 'n' :: 'u' :: 'l' :: 'l' :: r => .ok (none, r)
  | c :: rest =>
    if c = '"' then
      match parseStringBody (rest.length + 1) rest with
      | .error msg => .error msg
      | .ok (cs, r) => .ok (some (String.mk cs), r)
    else .error "cannot unmarshal value into field of type string"
  | [] => .error "unexpected end of input"

/-- Members of the top-level object, with DisallowUnknownFields semantics:
each key must fold-match in_scope or answer, each value must have the
field's type (or be null), duplicates keep the last value.  Fuel bounds
the recursion; callers pass the input length, which always suffices
because every iteration consumes at least one character. -/
def parseMembers : Nat → scopedAnswerResponse → List Char →
    Except String (scopedAnswerResponse × List Char)
  | 0, _, _ => .error "out of fuel"
  | fuel + 1, acc, cs =>
    match cs.dropWhile jsonWs with
    | [] => .error "unexpected end of object"
    | c :: rest =>
      if c = '"' then
        match parseStringBody (rest.length + 1) rest with
        | .error msg => .error msg
        | .ok (keyChars, r1) =>
          let key := String.mk keyChars
          match r1.dropWhile jsonWs with
          | [] => .error "unexpected end after object key"
          | c2 :: r2 =>
            if c2 = ':' then
              let body := r2.dropWhile jsonWs
              let valueResult : Except String (scopedAnswerResponse × List Char) :=
                if eqFold key "in_scope" then
                  match parseBoolOrNull body with
                  | .error msg => .error msg
                  | .ok (some b, r3) => .ok ({ acc with inScope := b }, r3)
                  | .ok (none, r3) => .ok (acc, r3)
                else if eqFold key "answer" then
                  match parseStringOrNull body with
                  | .error msg => .error msg
                  | .ok (some a, r3) => .ok ({ acc with answer := a }, r3)
                  | .ok (none, r3) => .ok (acc, r3)
                else .error ("unknown field " ++ key)
              match valueResult with
              | .error msg => .error msg
              | .ok (acc2, r3) =>
                match r3.dropWhile jsonWs with
                | [] => .error "unexpected end after member"
                | c3 :: r4 =>
                  if c3 = closeBraceChar then .ok (acc2, r4)
                  else if c3 = ',' then parseMembers fuel acc2 r4
                  else .error "expected comma or closing brace"
            else .error "expected colon after object key"
      else .error "expected object key"

/-- One `Decode(&out)` call into scopedAnswerResponse: skips leading JSON
whitespace, then accepts exactly a JSON null or an object of the two known
fields; returns the decoded struct and the unconsumed remainder. -/
def decodeScopedOnce (cs : List Char) : Except String (scopedAnswerResponse × List Char) :=
  match cs.dropWhile jsonWs with
  | [] => .error "EOF"
  | c :: rest =>
    if c = openBraceChar then
      match rest.dropWhile jsonWs with
      | [] => .error "unexpected end of object"
      | c2 :: r2 =>
        if c2 = closeBraceChar then .ok (zeroScoped, r2)
        else parseMembers (cs.length + 1) zeroScoped (c2 :: r2)
    else
      match c :: rest with
      | 'n' :: 'u' :: 'l' :: 'l' :: r => .ok (zeroScoped, r)
      | _ => .error "cannot unmarshal value into scopedAnswerResponse"

/-- parseScopedAnswer: trim the raw text, strictly decode one value, require
that only whitespace remains (the second Decode must return io.EOF), and
reject an in-scope result whose answer is empty after trimming. -/
def parseScopedAnswer (raw : String) : Except String scopedAnswerResponse :=
  match decodeScopedOnce (trimSpace raw).data with
  | .error msg => .error ("usecase: decode scoped answer: " ++ msg)
  | .ok (out, rest) =>
    if ¬ (rest.dropWhile jsonWs).isEmpty then
      .error "usecase: decode scoped answer: multiple JSON values or trailing data"
    else if out.inScope && trimSpace out.answer = "" then
      .error "usecase: scoped answer missing answer for in-scope question"
    else .ok out

/-! ## Classified usecase errors (usecase errors file) -/

/-- Go: type ErrorCode string. -/
abbrev ErrorCode := String

def ErrorInvalidInput : ErrorCode := "INVALID_INPUT"

def ErrorInvalidQuestion : ErrorCode := "INVALID_QUESTION"

def ErrorRateLimited : ErrorCode := "RATE_LIMITED"

def ErrorUpstream : ErrorCode := "UPSTREAM_ERROR"

def ErrorInternal : ErrorCode := "INTERNAL_ERROR"

/-- A collaborator (Go `error`) value: its message, plus the HTTP status
that `errors.As` would extract through an httpStatusCoder in its unwrap
chain (none when no such coder is present). -/
structure GoErr where
  msg : String
  status : Option Nat
deriving DecidableEq, Repr

/-- fmt.Errorf("...: %w", err): prefixes the message, keeps the unwrap
chain (and hence the extractable status). -/
def wrapErr (m : String) (e : GoErr) : GoErr := ⟨m ++ e.msg, e.status⟩

/-- usecase.Error (the ClassifiedError). -/
structure UError where
  code : ErrorCode
  reason : String
  cause : Option GoErr
deriving DecidableEq, Repr

/-- usecase.newError. -/
def newError (code : ErrorCode) (reason : String) (cause : Option GoErr) : UError :=
  ⟨code, reason, cause⟩

/-- upstreamStatusCode: the status errors.As finds, if any. -/
def upstreamStatusCode (e : GoErr) : Option Nat := e.status

/-! ## Repository (internal/repository/dynamodb_client.go)

The DynamoDB API itself is external; what is modelled is the pure part of
the repository layer: decoding query items into Messages and reversing
them (GetHistory), and constructing the single TransactWriteItems request
holding both puts (SaveTurn / SaveCompletedTurn).  `now` (the formatted
timestamp) and `ttl` enter as parameters, standing for time.Now(). -/

/-- A DynamoDB attribute value (only S and N occur in this table). -/
inductive Attr
  | S (v : String)
  | N (v : String)
deriving DecidableEq, Repr

/-- A DynamoDB item: attribute name/value pairs. -/
abbrev Item := List (String × Attr)

/-- strAttr: required string attribute lookup. -/
def strAttr (item : Item) (key : String) : Except String String :=
  match item.lookup key with
  | none => .error ("repository: missing attribute " ++ key)
  | some (.S v) => .ok v
  | some (.N _) => .error ("repository: attribute is not a string: " ++ key)

/-- itemToMessage: PK, SK, text are required; answer and status default to
empty when absent or non-string (Go drops their lookup error). -/
def itemToMessage (item : Item) : Except String Message :=
  match strAttr item "PK" with
  | .error e => .error e
  | .ok pk =>
    match strAttr item "SK" with
    | .error e => .error e
    | .ok sk =>
      match strAttr item "text" with
      | .error e => .error e
      | .ok text =>
        let answer := match strAttr item "answer" with | .ok v => v | .error _ => ""
        let status := match strAttr item "status" with | .ok v => v | .error _ => ""
        .ok { pk := pk, sk := sk, conversationID := "", text := text,
              answer := answer, tokens := 0, status := status, ttl := 0 }

/-- GetHistory after the query returned `items` (newest first, because the
query sets ScanIndexForward=false): decode each item, then reverse to
chronological order. -/
def getHistoryDecode (items : List Item) : Except String (List Message) :=
  match items.mapM itemToMessage with
  | .error e => .error ("repository: GetHistory unmarshal: " ++ e)
  | .ok msgs => .ok msgs.reverse

/-- convPK. -/
def convPK (conversationID : String) : String := "CONV#" ++ conversationID

/-- Sort-key tag for message records (Go constant skPrefixMsg). -/
def skMsgTag : String := "MSG#"

/-- Sort key for the meta record (Go constant skMeta). -/
def skMeta : String := "META#"

/-- msgSK: timestamp-based sort key; `now` stands for the formatted
current UTC time. -/
def msgSK (now : String) : String := skMsgTag ++ now

/-- NewMessage: fresh message record (status as given, answer empty). -/
def NewMessage (now : String) (ttl : Int) (conversationID text : String)
    (tokens : Int) (status : String) : Message :=
  { pk := convPK conversationID, sk := msgSK now, conversationID := conversationID,
    text := text, answer := "", tokens := tokens, status := status, ttl := ttl }

/-- NewConversationMeta. -/
def NewConversationMeta (now : String) (ttl : Int) (conversationID : String)
    (turns : Int) : ConversationMeta :=
  { pk := convPK conversationID, sk := skMeta, conversationID := conversationID,
    lastActivity := now, turns := turns, ttl := ttl }

/-- messageItem: the attribute map written for a message. -/
def messageItem (msg : Message) : Item :=
  [ ("PK", .S msg.pk), ("SK", .S msg.sk),
    ("conversationId", .S msg.conversationID),
    ("text", .S msg.text), ("answer", .S msg.answer),
    ("tokens", .N (toString msg.tokens)),
    ("status", .S msg.status), ("ttl", .N (toString msg.ttl)) ]

/-- metaItem: the attribute map written for the meta record. -/
def metaItem (meta : ConversationMeta) : Item :=
  [ ("PK", .S meta.pk), ("SK", .S meta.sk),
    ("conversationId", .S meta.conversationID),
    ("lastActivity", .S meta.lastActivity),
    ("turns", .N (toString meta.turns)), ("ttl", .N (toString meta.ttl)) ]

/-- One element of a TransactWriteItems request: a conditional Put. -/
structure TransactPut where
  item : Item
  condition : Option String
deriving DecidableEq, Repr

/-- SaveTurn: validates keys, then issues ONE TransactWriteItems request
holding both puts (the all-or-nothing dual write). -/
def SaveTurn (msg : Message) (meta : ConversationMeta) :
    Except String (List TransactPut) :=
  if msg.pk = "" || msg.sk = "" then
    .error "repository: SaveTurn: message PK and SK are required"
  else if meta.pk = "" || meta.sk = "" then
    .error "repository: SaveTurn: meta PK and SK are required"
  else
    .ok [ ⟨messageItem msg, some "attribute_not_exists(PK) AND attribute_not_exists(SK)"⟩,
          ⟨metaItem meta, none⟩ ]

/-- SaveCompletedTurn: builds the completed message (status=complete, with
the answer) and the updated meta (turns), and hands both to SaveTurn. -/
def SaveCompletedTurn (now : String) (ttl : Int)
    (conversationID question answer : String) (turns : Int) :
    Except String (List TransactPut) :=
  let msg0 := NewMessage now ttl conversationID question 0 statusComplete
  let msg := { msg0 with answer := answer }
  let meta := NewConversationMeta now ttl conversationID turns
  SaveTurn msg meta

/-! ## Ask workflow (internal/usecase/ask.go) -/

/-- usecase constant maxConversationTurns. -/
def maxConversationTurns : Nat := 10

/-- One external call made by the workflow, in order. -/
inductive Call
  | getParam (name : String)
  | getTurnCount (conversationID : String)
  | moderate (input : String)
  | getHistory (conversationID : String) (limit : Nat)
  | chat (model : String) (messages : List ChatMessage)
  | save (conversationID question answer : String) (turns : Nat)
deriving DecidableEq, Repr

/-- The three injected collaborators (ParamGetter, LLMClient,
StateReadWriter) plus the newUUID generator, as a per-invocation oracle:
each function gives the result the collaborator would return for that
call. -/
structure Collab where
  getParameter : String → Except GoErr String
  turnCount : String → Except GoErr Nat
  moderate : String → Except GoErr Bool
  getHistory : String → Nat → Except GoErr (List Message)
  save : String → String → String → Nat → Option GoErr
  chat : String → List ChatMessage → Except GoErr String
  uuid : String

/-- AskService: configuration plus the lazily-filled parameter cache
(paramBase models the paramPrefix field). -/
structure AskService where
  paramBase : String
  maxContextItems : Nat
  maxQuestionLen : Nat
  cacheLoaded : Bool
  resume : String
  interests : String
  pinnedPrompt : String
  openaiModel : String
deriving DecidableEq, Repr

structure AskInput where
  question : String
  conversationID : String
deriving DecidableEq, Repr

structure AskOutput where
  answer : String
  conversationID : String
deriving DecidableEq, Repr

/-- Result of one Ask invocation: the outcome, the service state after the
invocation (the cache may have been filled), and the ordered external
calls that were made. -/
structure AskResult where
  outcome : Except UError AskOutput
  service : AskService
  calls : List Call
deriving Repr

/-- loadSSMParams: fetch the four parameters in order, short-circuiting on
the first failure. -/
def loadSSMParams (c : Collab) (s : AskService) :
    Except GoErr (String × String × String × String) × List Call :=
  let p := trimRightSlash s.paramBase
  match c.getParameter (p ++ "/resume") with
  | .error e => (.error (wrapErr "usecase: load resume: " e),
      [.getParam (p ++ "/resume")])
  | .ok resume =>
    match c.getParameter (p ++ "/interests") with
    | .error e => (.error (wrapErr "usecase: load interests: " e),
        [.getParam (p ++ "/resume"), .getParam (p ++ "/interests")])
    | .ok interests =>
      match c.getParameter (p ++ "/pinned_prompt") with
      | .error e => (.error (wrapErr "usecase: load pinned prompt: " e),
          [.getParam (p ++ "/resume"), .getParam (p ++ "/interests"),
           .getParam (p ++ "/pinned_prompt")])
      | .ok pinnedPrompt =>
        match c.getParameter (p ++ "/config/openai_model") with
        | .error e => (.error (wrapErr "usecase: load openai model: " e),
            [.getParam (p ++ "/resume"), .getParam (p ++ "/interests"),
             .getParam (p ++ "/pinned_prompt"),
             .getParam (p ++ "/config/openai_model")])
        | .ok openaiModel =>
          (.ok (resume, interests, pinnedPrompt, openaiModel),
            [.getParam (p ++ "/resume"), .getParam (p ++ "/interests"),
             .getParam (p ++ "/pinned_prompt"),
             .getParam (p ++ "/config/openai_model")])

/-- ensureConfig: return immediately when the cache is loaded; otherwise
run the load, and only on full success publish all four values and set
the loaded flag (a failure leaves the service unchanged). -/
def ensureConfig (c : Collab) (s : AskService) :
    Except GoErr AskService × List Call :=
  if s.cacheLoaded then (.ok s, [])
  else
    match loadSSMParams c s with
    | (.error e, calls) => (.error e, calls)
    | (.ok (resume, interests, pinnedPrompt, openaiModel), calls) =>
      (.ok { s with resume := resume, interests := interests,
                    pinnedPrompt := pinnedPrompt, openaiModel := openaiModel,
                    cacheLoaded := true }, calls)

/-- The resolved conversation id: the trimmed client id, or a fresh UUID
when the client supplied none. -/
def resolveConvID (c : Collab) (rawConvID : String) : String :=
  if trimSpace rawConvID = "" then c.uuid else trimSpace rawConvID

/-- The turn-count step: only a client-supplied (non-empty after trim)
conversation id is checked; otherwise existingTurns stays 0 with no store
call. -/
def turnCheck (c : Collab) (rawConvID : String) : Except GoErr Nat × List Call :=
  if trimSpace rawConvID = "" then (.ok 0, [])
  else (c.turnCount (trimSpace rawConvID), [.getTurnCount (trimSpace rawConvID)])

/-- AskService.Ask, with the external calls traced in order. -/
def Ask (c : Collab) (s : AskService) (input : AskInput) : AskResult :=
  if trimSpace input.question = "" then
    ⟨.error (newError ErrorInvalidInput "empty_question" none), s, []⟩
  else if s.maxQuestionLen < goLen (trimSpace input.question) then
    ⟨.error (newError ErrorInvalidInput "question_too_long" none), s, []⟩
  else
    match ensureConfig c s with
    | (.error e, t0) =>
      ⟨.error (newError ErrorInternal "ssm_load_error" (some e)), s, t0⟩
    | (.ok s1, t0) =>
      match turnCheck c input.conversationID with
      | (.error e, t1) =>
        ⟨.error (newError ErrorInternal "dynamodb_turn_count_error" (some e)),
          s1, t0 ++ t1⟩
      | (.ok existingTurns, t1) =>
        if maxConversationTurns ≤ existingTurns then
          ⟨.error (newError ErrorInvalidInput "conversation_turn_limit" none),
            s1, t0 ++ t1⟩
        else
          match c.moderate (trimSpace input.question) with
          | .error e =>
            if upstreamStatusCode e = some 429 then
              ⟨.error (newError ErrorRateLimited "moderation_rate_limited" (some e)),
                s1, t0 ++ t1 ++ [.moderate (trimSpace input.question)]⟩
            else
              ⟨.error (newError ErrorUpstream "moderation_error" (some e)),
                s1, t0 ++ t1 ++ [.moderate (trimSpace input.question)]⟩
          | .ok true =>
            ⟨.error (newError ErrorInvalidQuestion "moderation_flagged" none),
              s1, t0 ++ t1 ++ [.moderate (trimSpace input.question)]⟩
          | .ok false =>
            match c.getHistory (resolveConvID c input.conversationID) s1.maxContextItems with
            | .error e =>
              ⟨.error (newError ErrorInternal "dynamodb_history_error" (some e)),
                s1, t0 ++ t1 ++ [.moderate (trimSpace input.question),
                  .getHistory (resolveConvID c input.conversationID) s1.maxContextItems]⟩
            | .ok history =>
              match c.chat s1.openaiModel
                  (buildPromptMessages
                    ⟨s1.pinnedPrompt, s1.resume, s1.interests⟩
                    (trimSpace input.question) history) with
              | .error e =>
                if upstreamStatusCode e = some 429 then
                  ⟨.error (newError ErrorRateLimited "openai_rate_limited" (some e)),
                    s1, t0 ++ t1 ++ [.moderate (trimSpace input.question),
                      .getHistory (resolveConvID c input.conversationID) s1.maxContextItems,
                      .chat s1.openaiModel
                        (buildPromptMessages ⟨s1.pinnedPrompt, s1.resume, s1.interests⟩
                          (trimSpace input.question) history)]⟩
                else
                  ⟨.error (newError ErrorUpstream "openai_error" (some e)),
                    s1, t0 ++ t1 ++ [.moderate (trimSpace input.question),
                      .getHistory (resolveConvID c input.conversationID) s1.maxContextItems,
                      .chat s1.openaiModel
                        (buildPromptMessages ⟨s1.pinnedPrompt, s1.resume, s1.interests⟩
                          (trimSpace input.question) history)]⟩
              | .ok raw =>
                match parseScopedAnswer raw with
                | .error msg =>
                  ⟨.error (newError ErrorUpstream "openai_malformed_response"
                      (some ⟨msg, none⟩)),
                    s1, t0 ++ t1 ++ [.moderate (trimSpace input.question),
                      .getHistory (resolveConvID c input.conversationID) s1.maxContextItems,
                      .chat s1.openaiModel
                        (buildPromptMessages ⟨s1.pinnedPrompt, s1.resume, s1.interests⟩
                          (trimSpace input.question) history)]⟩
                | .ok decision =>
                  if decision.inScope = false then
                    ⟨.error (newError ErrorInvalidQuestion "relevance_off_topic" none),
                      s1, t0 ++ t1 ++ [.moderate (trimSpace input.question),
                        .getHistory (resolveConvID c input.conversationID) s1.maxContextItems,
                        .chat s1.openaiModel
                          (buildPromptMessages ⟨s1.pinnedPrompt, s1.resume, s1.interests⟩
                            (trimSpace input.question) history)]⟩
                  else
                    match c.save (resolveConvID c input.conversationID)
                        (trimSpace input.question) decision.answer (existingTurns + 1) with
                    | some e =>
                      ⟨.error (newError ErrorInternal "dynamodb_write_error" (some e)),
                        s1, t0 ++ t1 ++ [.moderate (trimSpace input.question),
                          .getHistory (resolveConvID c input.conversationID) s1.maxContextItems,
                          .chat s1.openaiModel
                            (buildPromptMessages ⟨s1.pinnedPrompt, s1.resume, s1.interests⟩
                              (trimSpace input.question) history),
                          .save (resolveConvID c input.conversationID)
                            (trimSpace input.question) decision.answer (existingTurns + 1)]⟩
                    | none =>
                      ⟨.ok ⟨decision.answer, resolveConvID c input.conversationID⟩,
                        s1, t0 ++ t1 ++ [.moderate (trimSpace input.question),
                          .getHistory (resolveConvID c input.conversationID) s1.maxContextItems,
                          .chat s1.openaiModel
                            (buildPromptMessages ⟨s1.pinnedPrompt, s1.resume, s1.interests⟩
                              (trimSpace input.question) history),
                          .save (resolveConvID c input.conversationID)
                            (trimSpace input.question) decision.answer (existingTurns + 1)]⟩

/-! ## Helper predicates and lemmas -/

/-- Is this call a moderation call? -/
def Call.isModerateCall : Call → Bool
  | .moderate _ => true
  | _ => false

/-- Is this call an LLM chat (generation) call? -/
def Call.isChatCall : Call → Bool
  | .chat _ _ => true
  | _ => false

/-- Is this call a persistence (SaveCompletedTurn) call? -/
def Call.isSaveCall : Call → Bool
  | .save _ _ _ _ => true
  | _ => false

/-- Is this call a parameter fetch? -/
def Call.isParamCall : Call → Bool
  | .getParam _ => true
  | _ => false

theorem param_call_not_llm (call : Call) (h : call.isParamCall = true) :
    call.isModerateCall = false ∧ call.isChatCall = false ∧ call.isSaveCall = false := by
  cases call <;> simp_all [Call.isParamCall, Call.isModerateCall, Call.isChatCall,
    Call.isSaveCall]

theorem loadSSMParams_calls_param (c : Collab) (s : AskService) :
    ∀ call ∈ (loadSSMParams c s).2, call.isParamCall = true := by
  unfold loadSSMParams
  cases h1 : c.getParameter (trimRightSlash s.paramBase ++ "/resume") with
  | error e => simp [h1, Call.isParamCall]
  | ok resume =>
    cases h2 : c.getParameter (trimRightSlash s.paramBase ++ "/interests") with
    | error e => simp [h1, h2, Call.isParamCall]
    | ok interests =>
      cases h3 : c.getParameter (trimRightSlash s.paramBase ++ "/pinned_prompt") with
      | error e => simp [h1, h2, h3, Call.isParamCall]
      | ok pinnedPrompt =>
        cases h4 : c.getParameter (trimRightSlash s.paramBase ++ "/config/openai_model") with
        | error e => simp [h1, h2, h3, h4, Call.isParamCall]
        | ok openaiModel => simp [h1, h2, h3, h4, Call.isParamCall]

theorem ensureConfig_calls_param (c : Collab) (s : AskService) :
    ∀ call ∈ (ensureConfig c s).2, call.isParamCall = true := by
  intro call h
  unfold ensureConfig at h
  split at h
  · simp_all
  · split at h <;> exact loadSSMParams_calls_param c s call (by simp_all)

theorem turnCheck_calls (c : Collab) (rawConvID : String) :
    ∀ call ∈ (turnCheck c rawConvID).2,
      call = .getTurnCount (trimSpace rawConvID) := by
  intro call h
  unfold turnCheck at h
  split at h <;> simp_all

theorem dropWhile_append_of_all {p : Char → Bool} (a b : List Char)
    (h : ∀ x ∈ a, p x = true) :
    (a ++ b).dropWhile p = b.dropWhile p := by
  induction a with
  | nil => simp
  | cons x xs ih =>
    have hx : p x = true := h x (by simp)
    simp only [List.cons_append, List.dropWhile_cons, hx, if_true]
    exact ih (fun y hy => h y (by simp [hy]))

/-- Appending Unicode whitespace to a string does not change its
TrimSpace image. -/
theorem trimSpace_append_ws (s : String) (ws : List Char)
    (h : ∀ c ∈ ws, goIsSpace c = true) :
    trimSpace (s ++ String.mk ws) = trimSpace s := by
  unfold trimSpace
  have hdata : (s ++ String.mk ws).data = s.data ++ ws := String.data_append s (String.mk ws)
  rw [hdata]
  rcases hnil : s.data.dropWhile goIsSpace with _ | ⟨x, xs⟩
  · have hall : ∀ x ∈ s.data, goIsSpace x = true := List.dropWhile_eq_nil_iff.mp hnil
    have h1 : (s.data ++ ws).dropWhile goIsSpace = ws.dropWhile goIsSpace :=
      dropWhile_append_of_all _ _ hall
    have h2 : ws.dropWhile goIsSpace = [] := List.dropWhile_eq_nil_iff.mpr h
    rw [h1, h2]
  · have hne : ¬ (s.data.dropWhile goIsSpace).isEmpty = true := by
      rw [hnil]; simp
    rw [List.dropWhile_append, if_neg hne, hnil]
    have hrev : ((x :: xs) ++ ws).reverse = ws.reverse ++ (x :: xs).reverse := by
      simp
    rw [hrev, dropWhile_append_of_all _ _ (by intro y hy; exact h y (by simpa using hy))]

/-- historyToPromptMessages yields two messages for an eligible record and
none otherwise. -/
def isEligible (m : Message) : Bool :=
  m.status == statusComplete && !(trimSpace m.text == "") && !(trimSpace m.answer == "")

theorem historyToPromptMessages_eligible (m : Message) (h : isEligible m = true) :
    historyToPromptMessages m =
      [⟨"user", trimSpace m.text⟩, ⟨"assistant", trimSpace m.answer⟩] := by
  unfold historyToPromptMessages
  simp only [isEligible, Bool.and_eq_true, beq_iff_eq, Bool.not_eq_true'] at h
  obtain ⟨⟨h1, h2⟩, h3⟩ := h
  simp_all

theorem historyToPromptMessages_ineligible (m : Message) (h : isEligible m = false) :
    historyToPromptMessages m = [] := by
  unfold historyToPromptMessages isEligible at *
  by_cases hs : m.status = statusComplete
  · simp only [hs, beq_self_eq_true, Bool.true_and] at h
    simp only [hs, ne_eq, not_true_eq_false, if_false]
    rcases Bool.and_eq_false_iff.mp h with h1 | h2
    · have : trimSpace m.text = "" := by
        by_contra hne
        simp [hne] at h1
      simp [this]
    · have : trimSpace m.answer = "" := by
        by_contra hne
        simp [hne] at h2
      simp [this]
  · simp [hs]

theorem historyToPromptMessages_length (m : Message) :
    (historyToPromptMessages m).length = if isEligible m then 2 else 0 := by
  by_cases h : isEligible m = true
  · rw [historyToPromptMessages_eligible m h, h]; rfl
  · rw [historyToPromptMessages_ineligible m (by simp_all), if_neg (by simp_all)]; rfl

theorem flatMap_history_length (history : List Message) :
    (history.flatMap historyToPromptMessages).length =
      2 * history.countP isEligible := by
  induction history with
  | nil => simp
  | cons m rest ih =>
    rw [List.flatMap_cons, List.length_append, ih, historyToPromptMessages_length,
      List.countP_cons]
    by_cases h : isEligible m = true
    · simp [h]
      ring
    · simp [h]

/-! ## Concrete fixtures for witnesses and counterexamples -/

/-- A collaborator oracle on which every external call succeeds. -/
def collabOK : Collab :=
  { getParameter := fun _ => .ok "v",
    turnCount := fun _ => .ok 0,
    moderate := fun _ => .ok false,
    getHistory := fun _ _ => .ok [],
    save := fun _ _ _ _ => none,
    chat := fun _ _ => .ok "\x7b\"in_scope\":true,\"answer\":\"hi\"\x7d",
    uuid := "uuid-1" }

/-- A fresh service (cache not yet loaded). -/
def svc0 : AskService := ⟨"/app/prod", 20, 300, false, "", "", "", ""⟩

/-- A service whose parameter cache is already loaded. -/
def svcLoaded : AskService :=
  ⟨"/app/prod", 20, 300, true, "resume text", "interests text", "pinned", "model-x"⟩

/-- A service with a small question limit, for length-check witnesses. -/
def svcShort : AskService := ⟨"/app/prod", 20, 4, false, "", "", "", ""⟩

/-! ## Claims -/

/-- C8: Ask trims the question first: an empty or all-whitespace question
yields InvalidInput/empty_question with no external calls at all (the
whole result is the error, an unchanged service, and an empty call
trace); a trimmed question longer than the configured maximum (in Go,
`len` of the string) yields InvalidInput/question_too_long, likewise
before any external call. -/
theorem c8_validation_first (c : Collab) (s : AskService) (input : AskInput) :
    (trimSpace input.question = "" →
      Ask c s input =
        ⟨.error (newError ErrorInvalidInput "empty_question" none), s, []⟩) ∧
    (trimSpace input.question ≠ "" →
      s.maxQuestionLen < goLen (trimSpace input.question) →
      Ask c s input =
        ⟨.error (newError ErrorInvalidInput "question_too_long" none), s, []⟩) := by
  constructor
  · intro h
    unfold Ask
    rw [if_pos h]
  · intro h1 h2
    unfold Ask
    rw [if_neg h1, if_pos h2]

/-- C8 witness: the empty-question branch at question "   " and the
too-long branch at a 5-byte question against a 4-byte limit. -/
theorem c8_validation_first_witness :
    Ask collabOK svc0 ⟨"   ", "x"⟩ =
      ⟨.error (newError ErrorInvalidInput "empty_question" none), svc0, []⟩ ∧
    Ask collabOK svcShort ⟨"abcde", ""⟩ =
      ⟨.error (newError ErrorInvalidInput "question_too_long" none), svcShort, []⟩ :=
  ⟨(c8_validation_first collabOK svc0 ⟨"   ", "x"⟩).1 (by decide),
   (c8_validation_first collabOK svcShort ⟨"abcde", ""⟩).2 (by decide) (by decide)⟩

/-- C10: the maximum-question-length check compares UTF-8 byte length, not
character count: the three-character question "ééé" is within a 4-character
budget but its 6 UTF-8 bytes exceed the limit, so Ask rejects it with
InvalidInput/question_too_long. -/
theorem c10_length_check_counts_bytes :
    "ééé".data.length ≤ svcShort.maxQuestionLen ∧
    trimSpace "ééé" = "ééé" ∧
    svcShort.maxQuestionLen < goLen (trimSpace "ééé") ∧
    (Ask collabOK svcShort ⟨"ééé", ""⟩).outcome =
      .error (newError ErrorInvalidInput "question_too_long" none) := by
  refine ⟨by decide, by decide, by decide, rfl⟩

/-- C1: when the client supplied a (non-empty after trim) conversation id
and its persisted turn count reads as at least 10, a request that passes
validation and configuration loading is rejected with
InvalidInput/conversation_turn_limit, and the call trace contains no
moderation call and no chat (generation) call. -/
theorem c1_turn_limit_blocks_upstream (c : Collab) (s : AskService)
    (input : AskInput) (s1 : AskService) (t0 : List Call) (n : Nat)
    (hq : ¬ trimSpace input.question = "")
    (hlen : ¬ s.maxQuestionLen < goLen (trimSpace input.question))
    (hcfg : ensureConfig c s = (.ok s1, t0))
    (hid : ¬ trimSpace input.conversationID = "")
    (hn : c.turnCount (trimSpace input.conversationID) = .ok n)
    (h10 : 10 ≤ n) :
    (Ask c s input).outcome =
      .error (newError ErrorInvalidInput "conversation_turn_limit" none) ∧
    ∀ call ∈ (Ask c s input).calls,
      call.isModerateCall = false ∧ call.isChatCall = false := by
  have hturn : turnCheck c input.conversationID =
      (.ok n, [.getTurnCount (trimSpace input.conversationID)]) := by
    unfold turnCheck
    rw [if_neg hid, hn]
  have hAsk : Ask c s input =
      ⟨.error (newError ErrorInvalidInput "conversation_turn_limit" none), s1,
        t0 ++ [.getTurnCount (trimSpace input.conversationID)]⟩ := by
    unfold Ask
    rw [if_neg hq, if_neg hlen]
    simp only [hcfg, hturn]
    rw [if_pos (show maxConversationTurns ≤ n from h10)]
  rw [hAsk]
  refine ⟨rfl, ?_⟩
  intro call hcall
  simp only [List.mem_append, List.mem_singleton] at hcall
  rcases hcall with hin | hone
  · have hp := ensureConfig_calls_param c s call
    rw [hcfg] at hp
    have := param_call_not_llm call (hp hin)
    exact ⟨this.1, this.2.1⟩
  · subst hone
    exact ⟨rfl, rfl⟩

/-- A collaborator whose persisted turn count reads 10. -/
def collabTurn10 : Collab := { collabOK with turnCount := fun _ => .ok 10 }

/-- svc0 after a successful parameter load against collabOK. -/
def svc0AfterLoad : AskService :=
  { svc0 with
      resume := "v"
      interests := "v"
      pinnedPrompt := "v"
      openaiModel := "v"
      cacheLoaded := true }

/-- The four parameter-fetch calls of a full load under svc0's paramPrefix. -/
def svc0ParamCalls : List Call :=
  [.getParam "/app/prod/resume", .getParam "/app/prod/interests",
   .getParam "/app/prod/pinned_prompt", .getParam "/app/prod/config/openai_model"]

/-- C1 witness: a concrete invocation with persisted turn count 10 on a
client-supplied conversation id. -/
theorem c1_turn_limit_blocks_upstream_witness :
    (Ask collabTurn10 svc0 ⟨"q", "conv-1"⟩).outcome =
      .error (newError ErrorInvalidInput "conversation_turn_limit" none) ∧
    ∀ call ∈ (Ask collabTurn10 svc0 ⟨"q", "conv-1"⟩).calls,
      call.isModerateCall = false ∧ call.isChatCall = false :=
  c1_turn_limit_blocks_upstream collabTurn10 svc0 ⟨"q", "conv-1"⟩
    svc0AfterLoad svc0ParamCalls
    10 (by decide) (by decide) (by decide) (by decide) (by decide) (by decide)

/-- The fixed, finite set of reason literals occurring in Ask. -/
def reasonSet : List String :=
  [ "empty_question", "question_too_long", "ssm_load_error",
    "dynamodb_turn_count_error", "conversation_turn_limit",
    "moderation_rate_limited", "moderation_error", "moderation_flagged",
    "dynamodb_history_error", "openai_rate_limited", "openai_error",
    "openai_malformed_response", "relevance_off_topic", "dynamodb_write_error" ]

/-- C9: for every input and every collaborator outcome, the reason string
of a ClassifiedError returned by Ask is one of fourteen constant string
literals; none is derived from the question text or from credentials, so
two runs that differ only in the question content produce the same
reason at the same failure point. -/
theorem c9_reasons_from_fixed_set (c : Collab) (s : AskService)
    (input : AskInput) (e : UError)
    (h : (Ask c s input).outcome = .error e) :
    e.reason ∈ reasonSet := by
  unfold Ask at h
  repeat' split at h
  all_goals simp_all [reasonSet, newError]
  all_goals (subst h; simp)

/-- C9 witness: the empty-question rejection's reason is in the set. -/
theorem c9_reasons_from_fixed_set_witness :
    (newError ErrorInvalidInput "empty_question" none).reason ∈ reasonSet :=
  c9_reasons_from_fixed_set collabOK svc0 ⟨"", ""⟩
    (newError ErrorInvalidInput "empty_question" none) (by rfl)

/-- C7: at both external LLM steps, failures are classified by HTTP status:
a moderation failure whose error carries status 429 yields
RateLimited/moderation_rate_limited and any other moderation failure
yields Upstream/moderation_error, a flagged moderation verdict yields
InvalidQuestion/moderation_flagged; a chat (generation) failure carrying
status 429 yields RateLimited/openai_rate_limited and any other chat
failure yields Upstream/openai_error. -/
theorem c7_upstream_status_classification (c : Collab) (s : AskService)
    (input : AskInput) (s1 : AskService) (t0 t1 : List Call) (n : Nat)
    (hq : ¬ trimSpace input.question = "")
    (hlen : ¬ s.maxQuestionLen < goLen (trimSpace input.question))
    (hcfg : ensureConfig c s = (.ok s1, t0))
    (hturn : turnCheck c input.conversationID = (.ok n, t1))
    (hn : n < 10) :
    (∀ e, c.moderate (trimSpace input.question) = .error e →
      upstreamStatusCode e = some 429 →
      (Ask c s input).outcome =
        .error (newError ErrorRateLimited "moderation_rate_limited" (some e))) ∧
    (∀ e, c.moderate (trimSpace input.question) = .error e →
      upstreamStatusCode e ≠ some 429 →
      (Ask c s input).outcome =
        .error (newError ErrorUpstream "moderation_error" (some e))) ∧
    (c.moderate (trimSpace input.question) = .ok true →
      (Ask c s input).outcome =
        .error (newError ErrorInvalidQuestion "moderation_flagged" none)) ∧
    (∀ history e, c.moderate (trimSpace input.question) = .ok false →
      c.getHistory (resolveConvID c input.conversationID) s1.maxContextItems =
        .ok history →
      c.chat s1.openaiModel
          (buildPromptMessages ⟨s1.pinnedPrompt, s1.resume, s1.interests⟩
            (trimSpace input.question) history) = .error e →
      upstreamStatusCode e = some 429 →
      (Ask c s input).outcome =
        .error (newError ErrorRateLimited "openai_rate_limited" (some e))) ∧
    (∀ history e, c.moderate (trimSpace input.question) = .ok false →
      c.getHistory (resolveConvID c input.conversationID) s1.maxContextItems =
        .ok history →
      c.chat s1.openaiModel
          (buildPromptMessages ⟨s1.pinnedPrompt, s1.resume, s1.interests⟩
            (trimSpace input.question) history) = .error e →
      upstreamStatusCode e ≠ some 429 →
      (Ask c s input).outcome =
        .error (newError ErrorUpstream "openai_error" (some e))) := by
  have hgate : ¬ maxConversationTurns ≤ n := by
    unfold maxConversationTurns
    omega
  refine ⟨?_, ?_, ?_, ?_, ?_⟩
  · intro e hmod h429
    unfold Ask
    rw [if_neg hq, if_neg hlen]
    simp only [hcfg, hturn]
    rw [if_neg hgate]
    simp only [hmod]
    rw [if_pos h429]
  · intro e hmod h429
    unfold Ask
    rw [if_neg hq, if_neg hlen]
    simp only [hcfg, hturn]
    rw [if_neg hgate]
    simp only [hmod]
    rw [if_neg h429]
  · intro hmod
    unfold Ask
    rw [if_neg hq, if_neg hlen]
    simp only [hcfg, hturn]
    rw [if_neg hgate]
    simp only [hmod]
  · intro history e hmod hhist hchat h429
    unfold Ask
    rw [if_neg hq, if_neg hlen]
    simp only [hcfg, hturn]
    rw [if_neg hgate]
    simp only [hmod, hhist, hchat]
    rw [if_pos h429]
  · intro history e hmod hhist hchat h429
    unfold Ask
    rw [if_neg hq, if_neg hlen]
    simp only [hcfg, hturn]
    rw [if_neg hgate]
    simp only [hmod, hhist, hchat]
    rw [if_neg h429]

/-- A collaborator whose moderation call fails with HTTP status 429. -/
def collabMod429 : Collab :=
  { collabOK with moderate := fun _ => .error ⟨"too many requests", some 429⟩ }

/-- A collaborator whose chat call fails with HTTP status 502. -/
def collabChat502 : Collab :=
  { collabOK with chat := fun _ _ => .error ⟨"bad gateway", some 502⟩ }

/-- C7 witness: a 429 moderation failure classifies as
moderation_rate_limited, and a 502 chat failure as openai_error. -/
theorem c7_upstream_status_classification_witness :
    (Ask collabMod429 svcLoaded ⟨"q", ""⟩).outcome =
      .error (newError ErrorRateLimited "moderation_rate_limited"
        (some ⟨"too many requests", some 429⟩)) ∧
    (Ask collabChat502 svcLoaded ⟨"q", ""⟩).outcome =
      .error (newError ErrorUpstream "openai_error"
        (some ⟨"bad gateway", some 502⟩)) :=
  ⟨(c7_upstream_status_classification collabMod429 svcLoaded ⟨"q", ""⟩
      svcLoaded [] [] 0 (by decide) (by decide) rfl rfl (by decide)).1
      ⟨"too many requests", some 429⟩ rfl rfl,
   (c7_upstream_status_classification collabChat502 svcLoaded ⟨"q", ""⟩
      svcLoaded [] [] 0 (by decide) (by decide) rfl rfl (by decide)).2.2.2.2
      [] ⟨"bad gateway", some 502⟩ rfl rfl rfl (by decide)⟩

/-- C6: after a successful structured decode, an in-scope result whose
answer trims to empty makes parseScopedAnswer fail, which Ask classifies
as Upstream/openai_malformed_response; a decoded result with inScope=false
makes Ask return InvalidQuestion/relevance_off_topic, and no persistence
call appears in the call trace. -/
theorem c6_scope_and_empty_answer (c : Collab) (s : AskService)
    (input : AskInput) (s1 : AskService) (t0 t1 : List Call) (n : Nat)
    (hq : ¬ trimSpace input.question = "")
    (hlen : ¬ s.maxQuestionLen < goLen (trimSpace input.question))
    (hcfg : ensureConfig c s = (.ok s1, t0))
    (hturn : turnCheck c input.conversationID = (.ok n, t1))
    (hn : n < 10) :
    (∀ raw out rest, decodeScopedOnce (trimSpace raw).data = .ok (out, rest) →
      out.inScope = true → trimSpace out.answer = "" →
      (parseScopedAnswer raw).isOk = false) ∧
    (∀ history raw msg, c.moderate (trimSpace input.question) = .ok false →
      c.getHistory (resolveConvID c input.conversationID) s1.maxContextItems =
        .ok history →
      c.chat s1.openaiModel
          (buildPromptMessages ⟨s1.pinnedPrompt, s1.resume, s1.interests⟩
            (trimSpace input.question) history) = .ok raw →
      parseScopedAnswer raw = .error msg →
      (Ask c s input).outcome =
        .error (newError ErrorUpstream "openai_malformed_response"
          (some ⟨msg, none⟩))) ∧
    (∀ history raw decision, c.moderate (trimSpace input.question) = .ok false →
      c.getHistory (resolveConvID c input.conversationID) s1.maxContextItems =
        .ok history →
      c.chat s1.openaiModel
          (buildPromptMessages ⟨s1.pinnedPrompt, s1.resume, s1.interests⟩
            (trimSpace input.question) history) = .ok raw →
      parseScopedAnswer raw = .ok decision →
      decision.inScope = false →
      (Ask c s input).outcome =
        .error (newError ErrorInvalidQuestion "relevance_off_topic" none) ∧
      ∀ call ∈ (Ask c s input).calls, call.isSaveCall = false) := by
  have hgate : ¬ maxConversationTurns ≤ n := by
    unfold maxConversationTurns
    omega
  refine ⟨?_, ?_, ?_⟩
  · intro raw out rest hdec hscope hempty
    simp only [parseScopedAnswer, hdec]
    by_cases hrest : (List.dropWhile jsonWs rest).isEmpty = true
    · simp [hrest, hscope, hempty, Except.isOk, Except.toBool]
    · simp [hrest, Except.isOk, Except.toBool]
  · intro history raw msg hmod hhist hchat hparse
    unfold Ask
    rw [if_neg hq, if_neg hlen]
    simp only [hcfg, hturn]
    rw [if_neg hgate]
    simp only [hmod, hhist, hchat, hparse]
  · intro history raw decision hmod hhist hchat hparse hscope
    have hAsk : Ask c s input =
        ⟨.error (newError ErrorInvalidQuestion "relevance_off_topic" none), s1,
          t0 ++ t1 ++ [.moderate (trimSpace input.question),
            .getHistory (resolveConvID c input.conversationID) s1.maxContextItems,
            .chat s1.openaiModel
              (buildPromptMessages ⟨s1.pinnedPrompt, s1.resume, s1.interests⟩
                (trimSpace input.question) history)]⟩ := by
      unfold Ask
      rw [if_neg hq, if_neg hlen]
      simp only [hcfg, hturn]
      rw [if_neg hgate]
      simp only [hmod, hhist, hchat, hparse, hscope]
      rfl
    rw [hAsk]
    refine ⟨rfl, ?_⟩
    intro call hcall
    simp only [List.mem_append, List.mem_cons, List.mem_singleton] at hcall
    rcases hcall with (hin | hin) | h1 | h2 | h3 | habs
    · have hp := ensureConfig_calls_param c s call
      rw [hcfg] at hp
      exact (param_call_not_llm call (hp hin)).2.2
    · have hp := turnCheck_calls c input.conversationID call
      rw [hturn] at hp
      rw [hp hin]
      rfl
    · rw [h1]; rfl
    · rw [h2]; rfl
    · rw [h3]; rfl
    · exact absurd habs (by simp)

/-- A collaborator whose chat call returns an off-topic structured answer. -/
def collabOffTopic : Collab :=
  { collabOK with chat := fun _ _ => .ok "\x7b\"in_scope\":false,\"answer\":\"\"\x7d" }

/-- C6 witness: an in-scope/blank-answer payload fails the parser, and an
off-topic payload yields relevance_off_topic with no save call. -/
theorem c6_scope_and_empty_answer_witness :
    (parseScopedAnswer "\x7b\"in_scope\":true,\"answer\":\"  \"\x7d").isOk = false ∧
    (Ask collabOffTopic svcLoaded ⟨"q", ""⟩).outcome =
      .error (newError ErrorInvalidQuestion "relevance_off_topic" none) ∧
    ∀ call ∈ (Ask collabOffTopic svcLoaded ⟨"q", ""⟩).calls,
      call.isSaveCall = false :=
  ⟨(c6_scope_and_empty_answer collabOffTopic svcLoaded ⟨"q", ""⟩
      svcLoaded [] [] 0 (by decide) (by decide) rfl rfl (by decide)).1
      "\x7b\"in_scope\":true,\"answer\":\"  \"\x7d" ⟨true, "  "⟩ [] (by rfl) rfl (by decide),
   (c6_scope_and_empty_answer collabOffTopic svcLoaded ⟨"q", ""⟩
      svcLoaded [] [] 0 (by decide) (by decide) rfl rfl (by decide)).2.2
      [] "\x7b\"in_scope\":false,\"answer\":\"\"\x7d" ⟨false, ""⟩
      rfl rfl rfl (by rfl) rfl⟩

/-- C5: the prompt builder always produces 2 + 2*k + 1 messages, where k
counts the eligible history records (status=complete with non-empty
trimmed text and answer): two system messages first, then one
user/assistant pair per eligible record in the order the store returned
them, then the current question as the final user message; an ineligible
record contributes nothing wherever it sits; and the store hands history
back oldest-first because GetHistory reverses the decoded newest-first
query items. -/
theorem c5_prompt_shape (ctx : promptContext) (question : String)
    (history : List Message) :
    (buildPromptMessages ctx question history).length =
      2 + 2 * history.countP isEligible + 1 ∧
    buildPromptMessages ctx question history =
      ⟨"system", buildPolicyPrompt⟩ ::
        ⟨"system", buildProfileContextPrompt ctx⟩ ::
        (history.flatMap historyToPromptMessages ++ [⟨"user", question⟩]) ∧
    (∀ m, isEligible m = false → historyToPromptMessages m = []) ∧
    (∀ m, isEligible m = true → historyToPromptMessages m =
      [⟨"user", trimSpace m.text⟩, ⟨"assistant", trimSpace m.answer⟩]) ∧
    (∀ items msgs, items.mapM itemToMessage = .ok msgs →
      getHistoryDecode items = .ok msgs.reverse) := by
  refine ⟨?_, ?_, historyToPromptMessages_ineligible,
    historyToPromptMessages_eligible, ?_⟩
  · unfold buildPromptMessages
    simp only [List.length_append, List.length_cons, List.length_nil,
      flatMap_history_length]
    omega
  · unfold buildPromptMessages
    simp
  · intro items msgs hmap
    unfold getHistoryDecode
    rw [hmap]

/-- An eligible history record. -/
def msgEligibleFx : Message := ⟨"CONV#c", "MSG#t1", "", "hello", "world", 0, "complete", 0⟩

/-- An ineligible history record (status=pending, empty answer). -/
def msgPendingFx : Message := ⟨"CONV#c", "MSG#t2", "", "x", "", 0, "pending", 0⟩

/-- Two raw query items, newest first (the pending one is newest). -/
def itemsFx : List Item :=
  [ [("PK", .S "CONV#c"), ("SK", .S "MSG#t2"), ("text", .S "x")],
    [("PK", .S "CONV#c"), ("SK", .S "MSG#t1"), ("text", .S "hello"),
     ("answer", .S "world"), ("status", .S "complete")] ]

/-- C5 witness: one eligible plus one ineligible record give 5 messages,
the ineligible record contributes nothing, the eligible one becomes its
user/assistant pair, and decoding the newest-first items yields the
reversed (chronological) list. -/
theorem c5_prompt_shape_witness :
    (buildPromptMessages ⟨"p", "r", "i"⟩ "q" [msgEligibleFx, msgPendingFx]).length = 5 ∧
    historyToPromptMessages msgPendingFx = [] ∧
    historyToPromptMessages msgEligibleFx =
      [⟨"user", "hello"⟩, ⟨"assistant", "world"⟩] ∧
    getHistoryDecode itemsFx =
      .ok [⟨"CONV#c", "MSG#t1", "", "hello", "world", 0, "complete", 0⟩,
           ⟨"CONV#c", "MSG#t2", "", "x", "", 0, "", 0⟩] := by
  obtain ⟨h1, h2, h3, h4, h5⟩ :=
    c5_prompt_shape ⟨"p", "r", "i"⟩ "q" [msgEligibleFx, msgPendingFx]
  refine ⟨by rw [h1]; decide, h3 msgPendingFx (by decide), ?_, ?_⟩
  · rw [h4 msgEligibleFx (by decide)]
    decide
  · simpa using h5 itemsFx
      [⟨"CONV#c", "MSG#t2", "", "x", "", 0, "", 0⟩,
       ⟨"CONV#c", "MSG#t1", "", "hello", "world", 0, "complete", 0⟩] (by rfl)

theorem convPK_ne_empty (x : String) : ¬ convPK x = "" := by
  intro h
  have hd : (convPK x).data = [] := by rw [h]
  rw [convPK, String.data_append] at hd
  simp at hd

theorem msgSK_ne_empty (now : String) : ¬ msgSK now = "" := by
  intro h
  have hd : (msgSK now).data = [] := by rw [h]
  rw [msgSK, skMsgTag, String.data_append] at hd
  simp at hd

/-- A collaborator whose persist (SaveCompletedTurn) call fails. -/
def collabSaveFail : Collab :=
  { collabOK with save := fun _ _ _ _ => some ⟨"boom", none⟩ }

/-- C2 counterexample: when the transactional write fails, Ask returns the
Internal error with reason "dynamodb_write_error", not "persist_error" as
the claim states. -/
theorem c2_persist_reason_counterexample :
    (Ask collabSaveFail svcLoaded ⟨"q", ""⟩).outcome =
      .error (newError ErrorInternal "dynamodb_write_error" (some ⟨"boom", none⟩)) ∧
    "dynamodb_write_error" ≠ "persist_error" := by
  exact ⟨rfl, by decide⟩

/-- C2 (amended): the Persist step hands SaveCompletedTurn the resolved
conversation id, the trimmed question, the decoded answer, and prior
turns + 1; SaveCompletedTurn issues one TransactWriteItems request
holding both the completed message record (status=complete) and the
updated meta record (turns = prior+1); if the write fails, Ask returns
Internal with reason dynamodb_write_error and never returns the computed
answer. -/
theorem c2_persist_amended (c : Collab) (s : AskService) (input : AskInput)
    (s1 : AskService) (t0 t1 : List Call) (n : Nat) (history : List Message)
    (raw : String) (decision : scopedAnswerResponse) (e : GoErr)
    (hq : ¬ trimSpace input.question = "")
    (hlen : ¬ s.maxQuestionLen < goLen (trimSpace input.question))
    (hcfg : ensureConfig c s = (.ok s1, t0))
    (hturn : turnCheck c input.conversationID = (.ok n, t1))
    (hn : n < 10)
    (hmod : c.moderate (trimSpace input.question) = .ok false)
    (hhist : c.getHistory (resolveConvID c input.conversationID)
      s1.maxContextItems = .ok history)
    (hchat : c.chat s1.openaiModel
      (buildPromptMessages ⟨s1.pinnedPrompt, s1.resume, s1.interests⟩
        (trimSpace input.question) history) = .ok raw)
    (hparse : parseScopedAnswer raw = .ok decision)
    (hscope : decision.inScope = true)
    (hsave : c.save (resolveConvID c input.conversationID)
      (trimSpace input.question) decision.answer (n + 1) = some e) :
    (Ask c s input).outcome =
      .error (newError ErrorInternal "dynamodb_write_error" (some e)) ∧
    (∀ out, (Ask c s input).outcome ≠ .ok out) ∧
    (∀ now ttl, SaveCompletedTurn now ttl (resolveConvID c input.conversationID)
        (trimSpace input.question) decision.answer ((n : Int) + 1) =
      .ok [ ⟨messageItem
              { pk := convPK (resolveConvID c input.conversationID),
                sk := msgSK now,
                conversationID := resolveConvID c input.conversationID,
                text := trimSpace input.question,
                answer := decision.answer,
                tokens := 0, status := statusComplete, ttl := ttl },
              some "attribute_not_exists(PK) AND attribute_not_exists(SK)"⟩,
            ⟨metaItem
              { pk := convPK (resolveConvID c input.conversationID),
                sk := skMeta,
                conversationID := resolveConvID c input.conversationID,
                lastActivity := now,
                turns := (n : Int) + 1, ttl := ttl },
              none⟩ ]) := by
  have hgate : ¬ maxConversationTurns ≤ n := by
    unfold maxConversationTurns
    omega
  have hout : (Ask c s input).outcome =
      .error (newError ErrorInternal "dynamodb_write_error" (some e)) := by
    unfold Ask
    rw [if_neg hq, if_neg hlen]
    simp only [hcfg, hturn]
    rw [if_neg hgate]
    simp only [hmod, hhist, hchat, hparse]
    rw [if_neg (by simp [hscope])]
    simp only [hsave]
  refine ⟨hout, ?_, ?_⟩
  · intro out
    rw [hout]
    simp
  · intro now ttl
    unfold SaveCompletedTurn SaveTurn
    rw [if_neg (by simp [NewMessage, convPK_ne_empty, msgSK_ne_empty]),
        if_neg (by simp [NewConversationMeta, convPK_ne_empty, skMeta])]
    rfl

/-- C2 witness: a concrete run whose persist call fails, with the
transaction SaveCompletedTurn would build at a fixed timestamp. -/
theorem c2_persist_amended_witness :
    (Ask collabSaveFail svcLoaded ⟨"q", ""⟩).outcome =
      .error (newError ErrorInternal "dynamodb_write_error" (some ⟨"boom", none⟩)) ∧
    SaveCompletedTurn "T0" 7 "uuid-1" "q" "hi" 1 =
      .ok [ ⟨messageItem
              { pk := "CONV#uuid-1", sk := "MSG#T0", conversationID := "uuid-1",
                text := "q", answer := "hi", tokens := 0,
                status := "complete", ttl := 7 },
              some "attribute_not_exists(PK) AND attribute_not_exists(SK)"⟩,
            ⟨metaItem
              { pk := "CONV#uuid-1", sk := "META#", conversationID := "uuid-1",
                lastActivity := "T0", turns := 1, ttl := 7 },
              none⟩ ] := by
  obtain ⟨h1, _, h3⟩ := c2_persist_amended collabSaveFail svcLoaded ⟨"q", ""⟩
    svcLoaded [] [] 0 [] "\x7b\"in_scope\":true,\"answer\":\"hi\"\x7d"
    ⟨true, "hi"⟩ ⟨"boom", none⟩
    (by decide) (by decide) rfl rfl (by decide) rfl rfl rfl (by rfl) rfl rfl
  exact ⟨h1, by simpa using h3 "T0" 7⟩

/-- A collaborator whose parameter fetches all fail. -/
def collabParamFail : Collab :=
  { collabOK with getParameter := fun _ => .error ⟨"denied", none⟩ }

/-- C4 counterexample: when a parameter fetch fails, Ask surfaces the
Internal error with reason "ssm_load_error", not "config_load_error" as
the claim states. -/
theorem c4_config_reason_counterexample :
    (Ask collabParamFail svc0 ⟨"q", ""⟩).outcome =
      .error (newError ErrorInternal "ssm_load_error"
        (some ⟨"usecase: load resume: denied", none⟩)) ∧
    "ssm_load_error" ≠ "config_load_error" := by
  exact ⟨rfl, by decide⟩

/-- C4 (amended): the configuration cache load is all-or-nothing and
retryable: when any of the four parameter fetches fails, the load
succeeds only if all four fetches succeed, nothing is cached (the
service, including its loaded flag, is returned unchanged, so a later
invocation retries the load), and Ask surfaces the failure as
Internal/ssm_load_error; a load failure leaves no partial state; after
one successful load the flag is set and ensureConfig returns immediately
with no parameter fetch. -/
theorem c4_config_cache_amended (c : Collab) (s : AskService) :
    (∀ e t, s.cacheLoaded = false → ensureConfig c s = (.error e, t) →
      ∀ input : AskInput, ¬ trimSpace input.question = "" →
        ¬ s.maxQuestionLen < goLen (trimSpace input.question) →
        (Ask c s input).outcome =
          .error (newError ErrorInternal "ssm_load_error" (some e)) ∧
        (Ask c s input).service = s) ∧
    (s.cacheLoaded = true → ensureConfig c s = (.ok s, [])) ∧
    (∀ r i pp m t, s.cacheLoaded = false →
      loadSSMParams c s = (.ok (r, i, pp, m), t) →
      ensureConfig c s =
        (.ok { s with
                resume := r
                interests := i
                pinnedPrompt := pp
                openaiModel := m
                cacheLoaded := true }, t)) ∧
    (loadSSMParams c s).1.isOk =
      ((c.getParameter (trimRightSlash s.paramBase ++ "/resume")).isOk &&
       (c.getParameter (trimRightSlash s.paramBase ++ "/interests")).isOk &&
       (c.getParameter (trimRightSlash s.paramBase ++ "/pinned_prompt")).isOk &&
       (c.getParameter (trimRightSlash s.paramBase ++ "/config/openai_model")).isOk) := by
  refine ⟨?_, ?_, ?_, ?_⟩
  · intro e t _ hcfg input hq hlen
    constructor
    · unfold Ask
      rw [if_neg hq, if_neg hlen]
      simp only [hcfg]
    · unfold Ask
      rw [if_neg hq, if_neg hlen]
      simp only [hcfg]
  · intro h
    unfold ensureConfig
    simp [h]
  · intro r i pp m t h hload
    unfold ensureConfig
    simp [h, hload]
  · unfold loadSSMParams
    cases h1 : c.getParameter (trimRightSlash s.paramBase ++ "/resume") with
    | error e => simp [h1, Except.isOk, Except.toBool]
    | ok resume =>
      cases h2 : c.getParameter (trimRightSlash s.paramBase ++ "/interests") with
      | error e => simp [h1, h2, Except.isOk, Except.toBool]
      | ok interests =>
        cases h3 : c.getParameter (trimRightSlash s.paramBase ++ "/pinned_prompt") with
        | error e => simp [h1, h2, h3, Except.isOk, Except.toBool]
        | ok pinnedPrompt =>
          cases h4 : c.getParameter (trimRightSlash s.paramBase ++ "/config/openai_model") with
          | error e => simp [h1, h2, h3, h4, Except.isOk, Except.toBool]
          | ok openaiModel => simp [h1, h2, h3, h4, Except.isOk, Except.toBool]

/-- C4 witness: a failed load leaves the service untouched and surfaces
ssm_load_error; a loaded cache short-circuits; a clean load against the
same (previously failing) service state succeeds and publishes. -/
theorem c4_config_cache_amended_witness :
    (Ask collabParamFail svc0 ⟨"q", ""⟩).outcome =
      .error (newError ErrorInternal "ssm_load_error"
        (some ⟨"usecase: load resume: denied", none⟩)) ∧
    (Ask collabParamFail svc0 ⟨"q", ""⟩).service = svc0 ∧
    ensureConfig collabOK svcLoaded = (.ok svcLoaded, []) ∧
    ensureConfig collabOK svc0 = (.ok svc0AfterLoad, svc0ParamCalls) := by
  obtain ⟨h1, _, _, _⟩ := c4_config_cache_amended collabParamFail svc0
  obtain ⟨_, g2, _, _⟩ := c4_config_cache_amended collabOK svcLoaded
  obtain ⟨_, _, k3, _⟩ := c4_config_cache_amended collabOK svc0
  have ha := h1 ⟨"usecase: load resume: denied", none⟩
    [.getParam "/app/prod/resume"] rfl (by rfl) ⟨"q", ""⟩ (by decide) (by decide)
  refine ⟨ha.1, ha.2, g2 rfl, ?_⟩
  have hk := k3 "v" "v" "v" "v" svc0ParamCalls rfl (by rfl)
  simpa using hk

/-- A collaborator whose chat reply carries a trailing space after the
JSON object. -/
def collabTrailWs : Collab :=
  { collabOK with chat := fun _ _ => .ok "\x7b\"in_scope\":true,\"answer\":\"hi\"\x7d " }

/-- C3 counterexample: a single trailing space after the JSON object does
NOT cause a parse failure (the parser trims the raw text first), and the
corresponding Ask run succeeds instead of failing with
openai_malformed_response. -/
theorem c3_trailing_ws_counterexample :
    parseScopedAnswer "\x7b\"in_scope\":true,\"answer\":\"hi\"\x7d " =
      .ok ⟨true, "hi"⟩ ∧
    (Ask collabTrailWs svcLoaded ⟨"q", ""⟩).outcome = .ok ⟨"hi", "uuid-1"⟩ := by
  exact ⟨rfl, rfl⟩

/-- C3 (amended): the parser trims leading/trailing Unicode whitespace
from the raw text before decoding, so whitespace-only trailing bytes
never change the result; it accepts exactly one JSON object with only
the two ScopedAnswer fields, and an unknown top-level field, a second
JSON value, or trailing non-whitespace bytes cause a parse failure,
which Ask classifies as Upstream/openai_malformed_response.  Each clause
holds universally: (1) appending whitespace never changes the result;
(2) whenever the strict decode accepts one value and the remainder after
it is whitespace-only, the parser accepts (the acceptance side);
(3) whenever the remainder after the decoded value contains any
non-whitespace byte — in particular any second JSON value or trailing
garbage — the parser fails; (4) at any member position and loop state of
the object decoder, a key that fold-matches neither in_scope nor answer
makes the decode fail; (5) every decode failure makes the parser fail;
(6) a non-empty object's decode is exactly the member loop, so clause 4
reaches parseScopedAnswer through clause 5; (7) every parse failure is
classified by Ask as Upstream/openai_malformed_response. -/
theorem c3_strict_parse_amended :
    (∀ raw ws, (∀ ch ∈ ws, goIsSpace ch = true) →
      parseScopedAnswer (raw ++ String.mk ws) = parseScopedAnswer raw) ∧
    (∀ raw out rest, decodeScopedOnce (trimSpace raw).data = .ok (out, rest) →
      List.dropWhile jsonWs rest = [] →
      (out.inScope = true → ¬ trimSpace out.answer = "") →
      parseScopedAnswer raw = .ok out) ∧
    (∀ raw out rest, decodeScopedOnce (trimSpace raw).data = .ok (out, rest) →
      ¬ List.dropWhile jsonWs rest = [] →
      (parseScopedAnswer raw).isOk = false) ∧
    (∀ fuel acc cs rest keyChars r1,
      List.dropWhile jsonWs cs = '"' :: rest →
      parseStringBody (rest.length + 1) rest = .ok (keyChars, r1) →
      eqFold (String.mk keyChars) "in_scope" = false →
      eqFold (String.mk keyChars) "answer" = false →
      (parseMembers fuel acc cs).isOk = false) ∧
    (∀ raw msg, decodeScopedOnce (trimSpace raw).data = .error msg →
      (parseScopedAnswer raw).isOk = false) ∧
    (∀ cs r c2 r2, List.dropWhile jsonWs cs = openBraceChar :: r →
      List.dropWhile jsonWs r = c2 :: r2 → ¬ c2 = closeBraceChar →
      decodeScopedOnce cs = parseMembers (cs.length + 1) zeroScoped (c2 :: r2)) ∧
    (∀ (c : Collab) (s : AskService) (input : AskInput) (s1 : AskService)
        (t0 t1 : List Call) (n : Nat) (history : List Message)
        (raw msg : String),
      ¬ trimSpace input.question = "" →
      ¬ s.maxQuestionLen < goLen (trimSpace input.question) →
      ensureConfig c s = (.ok s1, t0) →
      turnCheck c input.conversationID = (.ok n, t1) →
      n < 10 →
      c.moderate (trimSpace input.question) = .ok false →
      c.getHistory (resolveConvID c input.conversationID) s1.maxContextItems =
        .ok history →
      c.chat s1.openaiModel
          (buildPromptMessages ⟨s1.pinnedPrompt, s1.resume, s1.interests⟩
            (trimSpace input.question) history) = .ok raw →
      parseScopedAnswer raw = .error msg →
      (Ask c s input).outcome =
        .error (newError ErrorUpstream "openai_malformed_response"
          (some ⟨msg, none⟩))) := by
  refine ⟨?_, ?_, ?_, ?_, ?_, ?_, ?_⟩
  · intro raw ws h
    unfold parseScopedAnswer
    rw [trimSpace_append_ws raw ws h]
  · intro raw out rest hdec hrest hinv
    have hcond : (out.inScope && decide (trimSpace out.answer = "")) = false := by
      cases hsc : out.inScope with
      | false => simp
      | true => simp [hinv hsc]
    simp [parseScopedAnswer, hdec, hrest, hcond]
  · intro raw out rest hdec hrest
    simp only [parseScopedAnswer, hdec]
    rw [if_pos (by simp [List.isEmpty_iff, hrest])]
    rfl
  · intro fuel acc cs rest keyChars r1 hhead hkey h1 h2
    cases fuel with
    | zero => rfl
    | succ fuel =>
      unfold parseMembers
      simp only [hhead, hkey]
      cases hr : List.dropWhile jsonWs r1 with
      | nil => simp [hr, Except.isOk, Except.toBool]
      | cons c2 r2 =>
        by_cases hc2 : c2 = ':'
        · simp [hr, hc2, h1, h2, Except.isOk, Except.toBool]
        · simp [hr, hc2, Except.isOk, Except.toBool]
  · intro raw msg hdec
    simp [parseScopedAnswer, hdec, Except.isOk, Except.toBool]
  · intro cs r c2 r2 h1 h2 hne
    unfold decodeScopedOnce
    simp [h1, h2, hne]
  · intro c s input s1 t0 t1 n history raw msg hq hlen hcfg hturn hn hmod hhist
      hchat hparse
    have hgate : ¬ maxConversationTurns ≤ n := by
      unfold maxConversationTurns
      omega
    unfold Ask
    rw [if_neg hq, if_neg hlen]
    simp only [hcfg, hturn]
    rw [if_neg hgate]
    simp only [hmod, hhist, hchat, hparse]

/-- A collaborator whose chat reply is not JSON at all. -/
def collabBadJson : Collab :=
  { collabOK with chat := fun _ _ => .ok "zz" }

/-- C3 witness: appending a newline leaves the parse result unchanged
(clause 1); the well-formed reply is accepted through the acceptance
clause (2); trailing non-whitespace content after the object is rejected
through clause 3; an unknown object key fails the member loop through
clause 4; and a non-JSON reply makes Ask fail with
openai_malformed_response through clause 7. -/
theorem c3_strict_parse_amended_witness :
    parseScopedAnswer ("\x7b\"in_scope\":true,\"answer\":\"hi\"\x7d" ++
        String.mk ['\n']) =
      parseScopedAnswer "\x7b\"in_scope\":true,\"answer\":\"hi\"\x7d" ∧
    parseScopedAnswer "\x7b\"in_scope\":true,\"answer\":\"hi\"\x7d" =
      .ok ⟨true, "hi"⟩ ∧
    (parseScopedAnswer "\x7b\"in_scope\":true,\"answer\":\"hi\"\x7d x").isOk =
      false ∧
    (parseMembers 64 zeroScoped ("\"extra\":1\x7d".data)).isOk = false ∧
    (Ask collabBadJson svcLoaded ⟨"q", ""⟩).outcome =
      .error (newError ErrorUpstream "openai_malformed_response"
        (some ⟨"usecase: decode scoped answer: cannot unmarshal value into scopedAnswerResponse",
          none⟩)) :=
  ⟨c3_strict_parse_amended.1 "\x7b\"in_scope\":true,\"answer\":\"hi\"\x7d"
      ['\n'] (by decide),
   c3_strict_parse_amended.2.1 "\x7b\"in_scope\":true,\"answer\":\"hi\"\x7d"
      ⟨true, "hi"⟩ [] (by rfl) rfl (fun _ => by decide),
   c3_strict_parse_amended.2.2.1 "\x7b\"in_scope\":true,\"answer\":\"hi\"\x7d x"
      ⟨true, "hi"⟩ [' ', 'x'] (by rfl) (by decide),
   c3_strict_parse_amended.2.2.2.1 64 zeroScoped ("\"extra\":1\x7d".data)
      ("extra\":1\x7d".data) ("extra".data) (":1\x7d".data)
      (by rfl) (by rfl) (by decide) (by decide),
   c3_strict_parse_amended.2.2.2.2.2.2 collabBadJson svcLoaded ⟨"q", ""⟩
      svcLoaded [] [] 0 [] "zz"
      "usecase: decode scoped answer: cannot unmarshal value into scopedAnswerResponse"
      (by decide) (by decide) rfl rfl (by decide) rfl rfl rfl (by rfl)⟩

end PortfolioAgent
